import Mathlib

/-!
Verification of `notion_mcp` (src/src/notion_mcp/server.py): a shallow
embedding of the JSON values the server manipulates, the property/block
codec functions, and the tool dispatcher `call_tool`, with theorems about
the specified behaviour.
-/

set_option linter.unusedVariables false

namespace NotionMcp

/-- JSON values, the data the Python server manipulates (Python `dict`s
are modelled as association lists with first-match lookup; keys produced
by the source are distinct wherever it builds a literal). -/
inductive Json where
  | null
  | bool (b : Bool)
  | num (n : Int)
  | str (s : String)
  | arr (xs : List Json)
  | obj (kvs : List (String × Json))

namespace Json

/-- Key lookup on an object; `none` when the key is absent or the value is
not an object (the source only calls `.get` on dicts). -/
def getOpt : Json → String → Option Json
  | .obj kvs, k => kvs.lookup k
  | _, _ => none

/-- Python `d.get(k, default)`. -/
def getD (j : Json) (k : String) (d : Json) : Json := (j.getOpt k).getD d

/-- Python `d.get(k)` (default `None`). -/
def get (j : Json) (k : String) : Json := j.getD k .null

/-- Python truthiness of a JSON value. -/
def truthy : Json → Bool
  | .null => false
  | .bool b => b
  | .num n => n != 0
  | .str s => s != ""
  | .arr xs => !xs.isEmpty
  | .obj kvs => !kvs.isEmpty

/-- The list of elements, for values the source iterates over
(a non-list here would raise in Python; the claims quantify over
well-shaped inputs). -/
def asArr : Json → List Json
  | .arr xs => xs
  | _ => []

/-- The string carried by a string value (the source only uses this where
the value is a string; a non-string would raise in Python). -/
def asString : Json → String
  | .str s => s
  | _ => ""

/-- The fields of an object. -/
def asObj : Json → List (String × Json)
  | .obj kvs => kvs
  | _ => []

/-- Python `j == s` for a string literal `s`. -/
def isStr (j : Json) (s : String) : Bool :=
  match j with
  | .str t => t == s
  | _ => false

end Json

open Json

/-- The six text-like block types of `format_block` (the two membership
tests of the source combined). -/
def textLikeTypes : List String :=
  ["paragraph", "heading_1", "heading_2", "heading_3",
   "bulleted_list_item", "numbered_list_item"]

/-- `" ".join([part.get("plain_text", "") for part in runs])`. -/
def joinPlainText (runs : Json) : String :=
  String.intercalate " " ((runs.asArr).map (fun part => (part.getD "plain_text" (.str "")).asString))

/-- `extract_multi_select` (server.py:443-448). -/
def extract_multi_select (property_data : Json) : Json :=
  if !property_data.truthy || !(property_data.get "type").isStr "multi_select" then
    .arr []
  else
    .arr ((property_data.getD "multi_select" (.arr [])).asArr.map
      (fun item => item.getD "name" (.str "")))

/-- `extract_select` (server.py:450-456). -/
def extract_select (property_data : Json) : Json :=
  if !property_data.truthy || !(property_data.get "type").isStr "select" then
    .str ""
  else
    let select_data := property_data.getD "select" (.obj [])
    if select_data.truthy then select_data.getD "name" (.str "") else .str ""

/-- `extract_text_from_title` (server.py:458-463). -/
def extract_text_from_title (title_property : Json) : Json :=
  if !title_property.truthy then .str ""
  else
    let title_parts := title_property.getD "title" (.arr [])
    if title_parts.truthy then .str (joinPlainText title_parts) else .str ""

/-- `format_property_value` (server.py:465-487). -/
def format_property_value (property_data : Json) : Json :=
  if !property_data.truthy then .null
  else
    let prop_type := property_data.get "type"
    if prop_type.isStr "title" then
      extract_text_from_title property_data
    else if prop_type.isStr "rich_text" then
      .str (String.intercalate " "
        ((property_data.getD "rich_text" (.arr [])).asArr.map
          (fun part => (part.getD "plain_text" (.str "")).asString)))
    else if prop_type.isStr "select" then
      let select_data := property_data.get "select"
      if select_data.truthy then select_data.get "name" else .null
    else if prop_type.isStr "multi_select" then
      .arr ((property_data.getD "multi_select" (.arr [])).asArr.map
        (fun item => item.get "name"))
    else if prop_type.isStr "date" then
      let date_data := property_data.getD "date" (.obj [])
      if date_data.truthy then
        .obj [("start", date_data.get "start"), ("end", date_data.get "end")]
      else .null
    else
      match prop_type with
      | .str t => property_data.get t
      | _ => .null

/-- `format_block` (server.py:489-516). -/
def format_block (block : Json) : Json :=
  let block_type := block.get "type"
  if !block_type.truthy then .null
  else
    match block_type with
    | .str t =>
      let content := block.getD t (.obj [])
      if t ∈ textLikeTypes then
        .obj [("type", .str t), ("text", .str (joinPlainText (content.getD "rich_text" (.arr []))))]
      else
        .obj [("type", .str t), ("content", content)]
    | other =>
      -- a non-string truthy tag matches no string key, so the content
      -- defaults to `{}` and falls to the final branch
      .obj [("type", other), ("content", .obj [])]

/-- `create_block_content` (server.py:518-533). -/
def create_block_content (block_type : String) (text : String) : Json :=
  .obj [
    ("type", .str block_type),
    ("object", .str "block"),
    (block_type, .obj [
      ("rich_text", .arr [
        .obj [
          ("type", .str "text"),
          ("text", .obj [("content", .str text)])
        ]
      ])
    ])
  ]

/-! ## The tool dispatcher

`call_tool` (server.py:196-441) performs HTTP calls. We model the HTTP
layer by an oracle `Nat → HttpResult` giving the outcome of the n-th
request a handler issues; a handler run records the requests issued in
order together with its result. -/

/-- `NOTION_BASE_URL` (server.py:42). -/
def NOTION_BASE_URL : String := "https://api.notion.com/v1"

/-- `s.replace("-", "")` of the url construction (server.py:230):
replacing every hyphen by the empty string, i.e. dropping every
hyphen. -/
def stripHyphens (s : String) : String := String.mk (s.data.filter (fun c => c != '-'))

/-- An HTTP request issued by a handler (`body` is `.null` for GETs). -/
structure Request where
  method : String
  url : String
  body : Json

/-- The outcome of one HTTP request: the parsed JSON body on success, or
the message of the `httpx.HTTPError` raised (non-2xx via
`raise_for_status`, or a transport failure). -/
inductive HttpResult where
  | ok (body : Json)
  | err (msg : String)

/-- The text of one returned `TextContent`: a literal string, or the
result of `json.dumps(j, indent=2, ensure_ascii=False)` (the
serialization itself is kept symbolic). -/
inductive TextOut where
  | plain (s : String)
  | jsonDump (j : Json)

/-- What a handler body produces: a list of `TextContent` texts, an
`httpx.HTTPError` propagating, or another Python exception propagating
(`ValueError` for unknown tools, `KeyError` for malformed content
entries). -/
inductive HRes where
  | texts (ts : List TextOut)
  | httpRaise (msg : String)
  | pyRaise (msg : String)

/-- A handler run: the requests issued, in order, and the result. -/
structure Run where
  requests : List Request
  result : HRes

/-- The query body sent by `show_all_notion_pages` (server.py:206-215). -/
def show_all_query_body : Json :=
  .obj [
    ("page_size", .num 500),
    ("sorts", .arr [.obj [
      ("property", .str "Created time"),
      ("timestamp", .str "created_time"),
      ("direction", .str "descending")]])
  ]

/-- The per-page object built by the `show_all_notion_pages` loop
(server.py:222-232). -/
def formatted_page (page : Json) : Json :=
  .obj [
    ("id", page.getD "id" (.str "")),
    ("title", extract_text_from_title ((page.getD "properties" (.obj [])).getD "Title" (.obj []))),
    ("clients", extract_multi_select ((page.getD "properties" (.obj [])).getD "Clients" (.obj []))),
    ("Created time", page.getD "created_time" (.str "")),
    ("Last edited time", page.getD "last_edited_time" (.str "")),
    ("url", .str ("https://www.notion.so/" ++ stripHyphens (page.getD "id" (.str "")).asString)),
    ("status", extract_select ((page.getD "properties" (.obj [])).getD "Status" (.obj [])))
  ]

/-- The `show_all_notion_pages` branch body (server.py:199-239), before
its `except` clause. -/
def show_all_run (database_id : String) (oracle : Nat → HttpResult) : Run :=
  let req : Request :=
    ⟨"POST", NOTION_BASE_URL ++ "/databases/" ++ database_id ++ "/query", show_all_query_body⟩
  match oracle 0 with
  | .err m => ⟨[req], .httpRaise m⟩
  | .ok pages =>
    ⟨[req], .texts [.jsonDump (.arr ((pages.getD "results" (.arr [])).asArr.map formatted_page))]⟩

/-- The `notion_update_status` branch body (server.py:249-284), before
its `except` clause. URLs interpolate the `page_id` value; the claims
quantify over string-valued arguments. -/
def update_status_run (args : Json) (oracle : Nat → HttpResult) : Run :=
  let page_id := args.get "page_id"
  let target_status := args.get "target_status"
  if !page_id.truthy || !target_status.truthy then
    ⟨[], .texts [.plain "Error: Both page_id and target_status are required."]⟩
  else
    let req : Request :=
      ⟨"PATCH", NOTION_BASE_URL ++ "/pages/" ++ page_id.asString,
        .obj [("properties", .obj [("Status", .obj [("status", .obj [("name", target_status)])])])]⟩
    match oracle 0 with
    | .err m => ⟨[req], .httpRaise m⟩
    | .ok _ =>
      ⟨[req], .texts [.plain ("Successfully updated page status to '" ++ target_status.asString ++ "'.")]⟩

/-- The `notion_read_page_content` branch body (server.py:298-334,
inlining `get_page_content`, server.py:172-194), before its `except`
clause. -/
def read_page_run (args : Json) (oracle : Nat → HttpResult) : Run :=
  let page_id := args.get "page_id"
  if !page_id.truthy then
    ⟨[], .texts [.plain "Error: page_id is required."]⟩
  else
    let req1 : Request := ⟨"GET", NOTION_BASE_URL ++ "/pages/" ++ page_id.asString, .null⟩
    match oracle 0 with
    | .err m => ⟨[req1], .httpRaise m⟩
    | .ok page_data =>
      let req2 : Request :=
        ⟨"GET", NOTION_BASE_URL ++ "/blocks/" ++ page_id.asString ++ "/children", .null⟩
      match oracle 1 with
      | .err m => ⟨[req1, req2], .httpRaise m⟩
      | .ok blocks_data =>
        let properties := page_data.getD "properties" (.obj [])
        let content := blocks_data.getD "results" (.arr [])
        let formatted_content : Json := .obj [
          ("title", extract_text_from_title (properties.getD "Title" (.obj []))),
          ("properties", .obj (properties.asObj.map (fun kv => (kv.1, format_property_value kv.2)))),
          ("blocks", .arr (content.asArr.map format_block))
        ]
        ⟨[req1, req2], .texts [.jsonDump formatted_content]⟩

/-- The list comprehension of `notion_update_page_content`
(server.py:350-353): `block["type"]` / `block["text"]` raise `KeyError`
when absent, modelled as an `Except` error. -/
def build_blocks : List Json → Except String (List Json)
  | [] => .ok []
  | b :: rest =>
    match b.getOpt "type", b.getOpt "text" with
    | some t, some tx =>
      match build_blocks rest with
      | .ok bs => .ok (create_block_content t.asString tx.asString :: bs)
      | .error e => .error e
    | none, _ => .error "KeyError: type"
    | some _, none => .error "KeyError: text"

/-- The `notion_update_page_content` branch body (server.py:336-379),
before its `except` clause. -/
def update_page_content_run (args : Json) (oracle : Nat → HttpResult) : Run :=
  let page_id := args.get "page_id"
  let content := args.get "content"
  if !page_id.truthy || !content.truthy then
    ⟨[], .texts [.plain "Error: Both page_id and content are required."]⟩
  else
    match build_blocks content.asArr with
    | .error e => ⟨[], .pyRaise e⟩
    | .ok blocks =>
      let req : Request :=
        ⟨"PATCH", NOTION_BASE_URL ++ "/blocks/" ++ page_id.asString ++ "/children",
          .obj [("children", .arr blocks)]⟩
      match oracle 0 with
      | .err m => ⟨[req], .httpRaise m⟩
      | .ok _ =>
        ⟨[req], .texts [.plain ("Successfully updated page content with "
          ++ toString blocks.length ++ " blocks.")]⟩

/-- The `notion_add_comment` branch body (server.py:381-438), before its
`except` clause. -/
def add_comment_run (args : Json) (oracle : Nat → HttpResult) : Run :=
  let page_id := args.get "page_id"
  let comment := args.get "comment"
  let icon := args.getD "icon" (.str "💬")
  if !page_id.truthy || !comment.truthy then
    ⟨[], .texts [.plain "Error: Both page_id and comment are required."]⟩
  else
    let comment_block : Json := .obj [
      ("type", .str "callout"),
      ("object", .str "block"),
      ("callout", .obj [
        ("rich_text", .arr [.obj [("type", .str "text"), ("text", .obj [("content", comment)])]]),
        ("icon", .obj [("type", .str "emoji"), ("emoji", icon)]),
        ("color", .str "gray_background")
      ])
    ]
    let req : Request :=
      ⟨"PATCH", NOTION_BASE_URL ++ "/blocks/" ++ page_id.asString ++ "/children",
        .obj [("children", .arr [comment_block])]⟩
    match oracle 0 with
    | .err m => ⟨[req], .httpRaise m⟩
    | .ok _ => ⟨[req], .texts [.plain "Successfully added comment to the page."]⟩

/-- The five tool names of the catalog (server.py:70-170). -/
def knownTools : List String :=
  ["show_all_notion_pages", "notion_update_status", "notion_read_page_content",
   "notion_update_page_content", "notion_add_comment"]

/-- The dispatch of `call_tool` (server.py:196-441) with every branch's
`try`/`except` removed: the branch bodies run bare. -/
def rawHandler (database_id : String) (name : String) (args : Json)
    (oracle : Nat → HttpResult) : Run :=
  if name == "show_all_notion_pages" then show_all_run database_id oracle
  else if name == "notion_update_status" then update_status_run args oracle
  else if name == "notion_read_page_content" then read_page_run args oracle
  else if name == "notion_update_page_content" then update_page_content_run args oracle
  else if name == "notion_add_comment" then add_comment_run args oracle
  else ⟨[], .pyRaise ("Unknown tool: " ++ name)⟩

/-- The text of the error `TextContent` each branch's
`except httpx.HTTPError` clause returns, as a function of `str(e)`
(server.py:240-247, 285-296, 327-334, 372-379, 431-438). -/
def handler_error_text (name : String) (m : String) : String :=
  if name == "show_all_notion_pages" then "Error listing pages: " ++ m
  else if name == "notion_update_status" then
    "Error updating status: " ++ m ++ "\n" ++
    "Possible issues:\n" ++
    "1. Invalid page ID\n" ++
    "2. Invalid status value (must match one of the select options in your database)\n" ++
    "3. API permission issues (make sure your integration has write access)"
  else if name == "notion_read_page_content" then "Error reading page content: " ++ m
  else if name == "notion_update_page_content" then "Error updating page content: " ++ m
  else "Error adding comment: " ++ m

/-- The `except httpx.HTTPError` boundary of a branch: an `httpx` error
becomes a single error `TextContent`; everything else passes through. -/
def catchHttp (r : Run) (wrap : String → String) : Run :=
  match r.result with
  | .httpRaise m => ⟨r.requests, .texts [.plain (wrap m)]⟩
  | _ => r

/-- `call_tool` (server.py:196-441): dispatch to the branch bodies, each
wrapped in its `try`/`except httpx.HTTPError` boundary; an unknown name
raises `ValueError` (server.py:440-441). -/
def call_tool (database_id : String) (name : String) (args : Json)
    (oracle : Nat → HttpResult) : Run :=
  if name ∈ knownTools then
    catchHttp (rawHandler database_id name args oracle) (handler_error_text name)
  else
    ⟨[], .pyRaise ("Unknown tool: " ++ name)⟩

/-- A mocked page (Title run "Doc", Clients multi-select ["Acme"],
Status select "Done", hyphenated id) for concrete evaluations. -/
def mock_page : Json :=
  .obj [
    ("id", .str "ab-cd"),
    ("created_time", .str "T1"),
    ("last_edited_time", .str "T2"),
    ("properties", .obj [
      ("Title", .obj [("type", .str "title"),
        ("title", .arr [.obj [("plain_text", .str "Doc")]])]),
      ("Clients", .obj [("type", .str "multi_select"),
        ("multi_select", .arr [.obj [("name", .str "Acme")]])]),
      ("Status", .obj [("type", .str "select"),
        ("select", .obj [("name", .str "Done")])])])]

/-- A mocked query response containing `mock_page`. -/
def mock_response : Json := .obj [("results", .arr [mock_page])]

/-! ## Theorems about the codecs -/

/-- C1 counterexample: the claimed round trip fails at type "paragraph",
text "Hi" — `format_block` on `create_block_content "paragraph" "Hi"`
does not yield `{type: "paragraph", text: "Hi"}` (the created rich-text
run carries its content under `text.content`, while `format_block` reads
the `plain_text` field, which the created run does not have). -/
theorem c1_roundtrip_counterexample :
    format_block (create_block_content "paragraph" "Hi")
      ≠ Json.obj [("type", .str "paragraph"), ("text", .str "Hi")] := by
  intro h
  have h2 : Json.obj [("type", Json.str "paragraph"), ("text", Json.str "")]
      = Json.obj [("type", Json.str "paragraph"), ("text", Json.str "Hi")] := h
  simp at h2

/-- C1 (amended): for every text-like block type `t` and every string
`s`, `format_block (create_block_content t s)` yields
`{type: t, text: ""}` — the type tag round-trips but the text is always
empty, because the created run stores `s` under `text.content` and
`format_block` joins the (absent) `plain_text` fields. -/
theorem c1_create_format_text_empty (t s : String) (ht : t ∈ textLikeTypes) :
    format_block (create_block_content t s)
      = Json.obj [("type", .str t), ("text", .str "")] := by
  fin_cases ht <;> rfl

/-- Witness for `c1_create_format_text_empty` at `t = "paragraph"`,
`s = "Hi"`. -/
theorem c1_create_format_text_empty_witness :
    format_block (create_block_content "paragraph" "Hi")
      = Json.obj [("type", .str "paragraph"), ("text", .str "")] :=
  c1_create_format_text_empty "paragraph" "Hi" (by decide)

/-- C5: for a property object whose type tag is a string not among the
five handled tags, `format_property_value` returns the tag-keyed
sub-object unchanged; and on a null input it returns null. -/
theorem c5_property_passthrough (pd : Json) (t : String)
    (htag : pd.get "type" = .str t)
    (hnot : t ∉ ["title", "rich_text", "select", "multi_select", "date"]) :
    (pd.truthy = true → format_property_value pd = pd.get t)
    ∧ format_property_value .null = .null := by
  simp only [List.mem_cons, List.not_mem_nil, or_false, not_or] at hnot
  obtain ⟨h1, h2, h3, h4, h5⟩ := hnot
  refine ⟨fun htru => ?_, rfl⟩
  simp [format_property_value, htru, htag, Json.isStr, h1, h2, h3, h4, h5]

/-- Witness for `c5_property_passthrough` at a checkbox property. -/
theorem c5_property_passthrough_witness :
    format_property_value (.obj [("type", .str "checkbox"), ("checkbox", .bool true)])
      = Json.bool true :=
  (c5_property_passthrough (.obj [("type", .str "checkbox"), ("checkbox", .bool true)])
    "checkbox" rfl (by decide)).1 rfl

/-- C6 counterexample: a block whose type tag is present but the empty
string — a tag outside the text-like set, for which the claim requires
`{type, content}` — is mapped to null instead, because the code tests
the tag's truthiness, not its presence. -/
theorem c6_format_block_counterexample :
    format_block (.obj [("type", .str "")]) = Json.null
    ∧ format_block (.obj [("type", .str "")])
        ≠ Json.obj [("type", .str ""), ("content", .obj [])] := by
  refine ⟨rfl, ?_⟩
  intro h
  have h2 : Json.null = Json.obj [("type", Json.str ""), ("content", Json.obj [])] := h
  exact Json.noConfusion h2

/-- C6 (amended): if the block's type tag is absent or falsy (e.g. the
empty string), `format_block` returns null; if it is a non-empty
text-like string tag, it returns `{type, text}` with the plain-text
fragments of that kind's rich-text run list joined with single spaces;
for every other non-empty string tag it returns `{type, content}` with
the tag-keyed nested payload passed through unmodified. -/
theorem c6_format_block_cases (block : Json) :
    ((block.get "type").truthy = false → format_block block = .null)
    ∧ (∀ t, block.get "type" = .str t → t ∈ textLikeTypes →
        format_block block
          = .obj [("type", .str t),
                  ("text", .str (String.intercalate " "
                    (((block.getD t (.obj [])).getD "rich_text" (.arr [])).asArr.map
                      (fun part => (part.getD "plain_text" (.str "")).asString))))])
    ∧ (∀ t, block.get "type" = .str t → t ≠ "" → t ∉ textLikeTypes →
        format_block block
          = .obj [("type", .str t), ("content", block.getD t (.obj []))]) := by
  refine ⟨fun hfal => ?_, fun t htag hmem => ?_, fun t htag hne hmem => ?_⟩
  · simp [format_block, hfal]
  · have hne : t ≠ "" := by fin_cases hmem <;> decide
    simp [format_block, htag, Json.truthy, hne, hmem, joinPlainText]
  · simp [format_block, htag, Json.truthy, hne, hmem]

/-- Witness for `c6_format_block_cases`: a paragraph block with two
plain-text runs. -/
theorem c6_format_block_cases_witness :
    format_block (.obj [("type", .str "paragraph"),
      ("paragraph", .obj [("rich_text", .arr
        [.obj [("plain_text", .str "Hello")], .obj [("plain_text", .str "world")]])])])
      = Json.obj [("type", .str "paragraph"), ("text", .str "Hello world")] :=
  ((c6_format_block_cases (.obj [("type", .str "paragraph"),
      ("paragraph", .obj [("rich_text", .arr
        [.obj [("plain_text", .str "Hello")],
         .obj [("plain_text", .str "world")]])])])).2.1
    "paragraph" rfl (by decide)).trans rfl

/-- C7: `extract_select` returns the selected option's name exactly when
the property's tag is `select` and a selection exists (a truthy `select`
payload), and the empty string — never null — otherwise (different tag,
falsy input, or no selection). -/
theorem c7_extract_select (pd : Json) :
    (∀ sel n, pd.get "type" = .str "select" → pd.getD "select" (.obj []) = sel →
      sel.truthy = true → sel.getD "name" (.str "") = .str n →
      extract_select pd = .str n)
    ∧ (∀ t, pd.get "type" = .str t → t ≠ "select" → extract_select pd = .str "")
    ∧ (pd.get "type" = .str "select" → (pd.getD "select" (.obj [])).truthy = false →
        extract_select pd = .str "")
    ∧ (pd.truthy = false → extract_select pd = .str "") := by
  refine ⟨fun sel n htag hsel htru hname => ?_, fun t htag hne => ?_,
    fun htag hfal => ?_, fun hfal => ?_⟩
  · have htru' : pd.truthy = true := by
      cases pd with
      | obj kvs =>
        cases kvs with
        | nil => simp [Json.get, Json.getD, Json.getOpt] at htag
        | cons hd tl => simp [Json.truthy]
      | null => simp [Json.get, Json.getD, Json.getOpt] at htag
      | bool b => simp [Json.get, Json.getD, Json.getOpt] at htag
      | num m => simp [Json.get, Json.getD, Json.getOpt] at htag
      | str s => simp [Json.get, Json.getD, Json.getOpt] at htag
      | arr xs => simp [Json.get, Json.getD, Json.getOpt] at htag
    rw [← hname, ← hsel]
    simp [extract_select, htru', htag, Json.isStr, hsel, htru]
  · cases hpd : pd.truthy with
    | false => simp [extract_select, hpd]
    | true => simp [extract_select, hpd, htag, Json.isStr, hne]
  · have htru' : pd.truthy = true := by
      cases pd with
      | obj kvs =>
        cases kvs with
        | nil => simp [Json.get, Json.getD, Json.getOpt] at htag
        | cons hd tl => simp [Json.truthy]
      | null => simp [Json.get, Json.getD, Json.getOpt] at htag
      | bool b => simp [Json.get, Json.getD, Json.getOpt] at htag
      | num m => simp [Json.get, Json.getD, Json.getOpt] at htag
      | str s => simp [Json.get, Json.getD, Json.getOpt] at htag
      | arr xs => simp [Json.get, Json.getD, Json.getOpt] at htag
    simp [extract_select, htru', htag, Json.isStr, hfal]
  · simp [extract_select, hfal]

/-- Witness for `c7_extract_select`: a selected "Done" option, and a
select property with no selection. -/
theorem c7_extract_select_witness :
    extract_select (.obj [("type", .str "select"), ("select", .obj [("name", .str "Done")])])
      = Json.str "Done"
    ∧ extract_select (.obj [("type", .str "select"), ("select", .null)]) = Json.str "" :=
  ⟨(c7_extract_select _).1 (.obj [("name", .str "Done")]) "Done" rfl rfl rfl rfl,
   (c7_extract_select _).2.2.1 rfl rfl⟩

/-! ## Theorems about the dispatcher -/

/-- C2 counterexample: at page_id "p", target_status "Done", the single
PATCH body does not set a `select` payload on "Status" — the "Status"
object carries a `status` payload and no `select` key at all, so the
select payload's name is null, not "Done". -/
theorem c2_status_select_counterexample :
    ∃ body : Json,
      (call_tool "db" "notion_update_status"
        (.obj [("page_id", .str "p"), ("target_status", .str "Done")])
        (fun _ => .ok (.obj []))).requests
        = [⟨"PATCH", "https://api.notion.com/v1/pages/p", body⟩]
      ∧ ((body.get "properties").get "Status").get "select" = Json.null
      ∧ (((body.get "properties").get "Status").get "select").get "name" ≠ Json.str "Done"
      ∧ ((body.get "properties").get "Status").get "status" = Json.obj [("name", .str "Done")] :=
  ⟨_, rfl, rfl, fun h => Json.noConfusion h, rfl⟩

/-- C2 (amended): for non-empty string `page_id` and `target_status`,
`notion_update_status` issues exactly one PATCH to `pages/{page_id}`
whose body sets the page's "Status" property via a status-type payload
`{"status": {"name": target_status}}` (not a select payload), and on
success returns a confirmation text naming the new status. -/
theorem c2_update_status (database_id pid target : String) (args : Json)
    (oracle : Nat → HttpResult) (resp : Json)
    (hpid : args.get "page_id" = .str pid) (hpid0 : pid ≠ "")
    (htgt : args.get "target_status" = .str target) (htgt0 : target ≠ "")
    (hok : oracle 0 = .ok resp) :
    call_tool database_id "notion_update_status" args oracle
      = ⟨[⟨"PATCH", NOTION_BASE_URL ++ "/pages/" ++ pid,
           .obj [("properties", .obj [("Status", .obj [("status",
             .obj [("name", .str target)])])])]⟩],
         .texts [.plain ("Successfully updated page status to '" ++ target ++ "'.")]⟩ := by
  simp [call_tool, knownTools, rawHandler, update_status_run, catchHttp,
    hpid, htgt, hok, hpid0, htgt0, Json.truthy, Json.asString]

/-- Witness for `c2_update_status` at page "p", status "Done". -/
theorem c2_update_status_witness :
    call_tool "db" "notion_update_status"
      (.obj [("page_id", .str "p"), ("target_status", .str "Done")])
      (fun _ => .ok (.obj []))
      = ⟨[⟨"PATCH", NOTION_BASE_URL ++ "/pages/" ++ "p",
           .obj [("properties", .obj [("Status", .obj [("status",
             .obj [("name", .str "Done")])])])]⟩],
         .texts [.plain ("Successfully updated page status to '" ++ "Done" ++ "'.")]⟩ :=
  c2_update_status "db" "p" "Done"
    (.obj [("page_id", .str "p"), ("target_status", .str "Done")])
    (fun _ => .ok (.obj [])) (.obj []) rfl (by decide) rfl (by decide) rfl

/-- C3: for every recognized tool name and any arguments and HTTP
outcomes, an `httpx` failure raised in the branch body is caught at the
handler boundary and converted into a single textual error embedding the
failure's message; `call_tool` never lets an `httpx` error propagate. -/
theorem c3_http_errors_caught (database_id name : String) (args : Json)
    (oracle : Nat → HttpResult) :
    (∀ m, name ∈ knownTools →
      (rawHandler database_id name args oracle).result = .httpRaise m →
      (call_tool database_id name args oracle).requests
          = (rawHandler database_id name args oracle).requests
      ∧ (call_tool database_id name args oracle).result
          = .texts [.plain (handler_error_text name m)]
      ∧ ∃ p s, handler_error_text name m = p ++ m ++ s)
    ∧ ∀ m, (call_tool database_id name args oracle).result ≠ .httpRaise m := by
  constructor
  · intro m hmem hr
    have hc : call_tool database_id name args oracle
        = catchHttp (rawHandler database_id name args oracle) (handler_error_text name) := by
      simp [call_tool, hmem]
    refine ⟨?_, ?_, ?_⟩
    · rw [hc]; simp [catchHttp, hr]
    · rw [hc]; simp [catchHttp, hr]
    · fin_cases hmem
      · exact ⟨"Error listing pages: ", "", by simp [handler_error_text]⟩
      · exact ⟨"Error updating status: ",
          "\n" ++ "Possible issues:\n" ++ "1. Invalid page ID\n" ++
          "2. Invalid status value (must match one of the select options in your database)\n" ++
          "3. API permission issues (make sure your integration has write access)",
          by simp [handler_error_text, String.append_assoc]⟩
      · exact ⟨"Error reading page content: ", "", by simp [handler_error_text]⟩
      · exact ⟨"Error updating page content: ", "", by simp [handler_error_text]⟩
      · exact ⟨"Error adding comment: ", "", by simp [handler_error_text]⟩
  · intro m
    by_cases hmem : name ∈ knownTools
    · simp only [call_tool, if_pos hmem]
      rcases hres : (rawHandler database_id name args oracle).result with ts | m' | m' <;>
        simp [catchHttp, hres]
    · simp [call_tool, hmem]

/-- Witness for `c3_http_errors_caught`: a failing status update whose
transport error "boom" is embedded in the returned text. -/
theorem c3_http_errors_caught_witness :
    (call_tool "db" "notion_update_status"
      (.obj [("page_id", .str "p"), ("target_status", .str "Done")])
      (fun _ => .err "boom")).result
      = HRes.texts [.plain (handler_error_text "notion_update_status" "boom")] :=
  (((c3_http_errors_caught "db" "notion_update_status"
      (.obj [("page_id", .str "p"), ("target_status", .str "Done")])
      (fun _ => .err "boom")).1 "boom" (by decide) rfl).2).1

/-- C4: `show_all_notion_pages` issues one query to the configured
database with page size 500 sorted by creation time descending, and maps
every page of the response to the stated object: title from the "Title"
runs, clients from the "Clients" multi-select, status from the "Status"
select, and url `https://www.notion.so/` plus the page id with hyphens
removed. -/
theorem c4_show_all_pages (database_id : String) (args : Json)
    (oracle : Nat → HttpResult) (resp : Json) (hok : oracle 0 = .ok resp) :
    call_tool database_id "show_all_notion_pages" args oracle
      = ⟨[⟨"POST", NOTION_BASE_URL ++ "/databases/" ++ database_id ++ "/query",
           .obj [("page_size", .num 500),
                 ("sorts", .arr [.obj [("property", .str "Created time"),
                                       ("timestamp", .str "created_time"),
                                       ("direction", .str "descending")]])]⟩],
         .texts [.jsonDump (.arr ((resp.getD "results" (.arr [])).asArr.map formatted_page))]⟩
    ∧ ∀ page : Json, formatted_page page
        = Json.obj [
            ("id", page.getD "id" (.str "")),
            ("title", extract_text_from_title
              ((page.getD "properties" (.obj [])).getD "Title" (.obj []))),
            ("clients", extract_multi_select
              ((page.getD "properties" (.obj [])).getD "Clients" (.obj []))),
            ("Created time", page.getD "created_time" (.str "")),
            ("Last edited time", page.getD "last_edited_time" (.str "")),
            ("url", .str ("https://www.notion.so/"
              ++ stripHyphens (page.getD "id" (.str "")).asString)),
            ("status", extract_select
              ((page.getD "properties" (.obj [])).getD "Status" (.obj [])))] := by
  refine ⟨?_, fun page => rfl⟩
  simp [call_tool, knownTools, rawHandler, show_all_run, catchHttp, hok, show_all_query_body]

/-- Witness for `c4_show_all_pages`: one mocked page with a Title run, a
"Clients" multi-select and a "Done" select status. -/
theorem c4_show_all_pages_witness :
    call_tool "db" "show_all_notion_pages" (.obj [])
      (fun _ => .ok mock_response)
      = ⟨[⟨"POST", NOTION_BASE_URL ++ "/databases/" ++ "db" ++ "/query",
           .obj [("page_size", .num 500),
                 ("sorts", .arr [.obj [("property", .str "Created time"),
                                       ("timestamp", .str "created_time"),
                                       ("direction", .str "descending")]])]⟩],
         .texts [.jsonDump (.arr [.obj [
            ("id", .str "ab-cd"),
            ("title", .str "Doc"),
            ("clients", .arr [.str "Acme"]),
            ("Created time", .str "T1"),
            ("Last edited time", .str "T2"),
            ("url", .str "https://www.notion.so/abcd"),
            ("status", .str "Done")]])]⟩ :=
  ((c4_show_all_pages "db" (.obj []) (fun _ => .ok mock_response)
    mock_response rfl).1).trans rfl

/-- C8: for each known tool with required arguments, a missing required
argument yields a textual error result and an empty request trace (no
external call); `show_all_notion_pages` has no required arguments. -/
theorem c8_required_args (database_id : String) (oracle : Nat → HttpResult) :
    (∀ args : Json, args.getOpt "page_id" = none →
       call_tool database_id "notion_update_status" args oracle
         = ⟨[], .texts [.plain "Error: Both page_id and target_status are required."]⟩
       ∧ call_tool database_id "notion_read_page_content" args oracle
         = ⟨[], .texts [.plain "Error: page_id is required."]⟩
       ∧ call_tool database_id "notion_update_page_content" args oracle
         = ⟨[], .texts [.plain "Error: Both page_id and content are required."]⟩
       ∧ call_tool database_id "notion_add_comment" args oracle
         = ⟨[], .texts [.plain "Error: Both page_id and comment are required."]⟩)
    ∧ (∀ args : Json, args.getOpt "target_status" = none →
       call_tool database_id "notion_update_status" args oracle
         = ⟨[], .texts [.plain "Error: Both page_id and target_status are required."]⟩)
    ∧ (∀ args : Json, args.getOpt "content" = none →
       call_tool database_id "notion_update_page_content" args oracle
         = ⟨[], .texts [.plain "Error: Both page_id and content are required."]⟩)
    ∧ (∀ args : Json, args.getOpt "comment" = none →
       call_tool database_id "notion_add_comment" args oracle
         = ⟨[], .texts [.plain "Error: Both page_id and comment are required."]⟩) := by
  refine ⟨fun args h => ⟨?_, ?_, ?_, ?_⟩, fun args h => ?_, fun args h => ?_, fun args h => ?_⟩ <;>
    simp [call_tool, knownTools, rawHandler, update_status_run, read_page_run,
      update_page_content_run, add_comment_run, catchHttp,
      Json.get, Json.getD, h, Json.truthy]

/-- Witness for `c8_required_args`: empty arguments for
`notion_update_status` yield the required-arguments error and no
request. -/
theorem c8_required_args_witness :
    call_tool "db" "notion_update_status" (.obj []) (fun _ => .ok .null)
      = ⟨[], .texts [.plain "Error: Both page_id and target_status are required."]⟩ :=
  ((c8_required_args "db" (fun _ => .ok .null)).1 (.obj []) rfl).1

/-- C9: a tool name outside the five known names makes `call_tool` raise
`ValueError("Unknown tool: ...")` without issuing any request, and the
failure is not converted into a textual result. -/
theorem c9_unknown_tool (database_id name : String) (args : Json)
    (oracle : Nat → HttpResult) (h : name ∉ knownTools) :
    call_tool database_id name args oracle = ⟨[], .pyRaise ("Unknown tool: " ++ name)⟩
    ∧ ∀ ts, (call_tool database_id name args oracle).result ≠ .texts ts := by
  have hc : call_tool database_id name args oracle
      = ⟨[], .pyRaise ("Unknown tool: " ++ name)⟩ := by
    simp [call_tool, h]
  exact ⟨hc, fun ts hts => by rw [hc] at hts; exact HRes.noConfusion hts⟩

/-- Witness for `c9_unknown_tool` at name "bogus". -/
theorem c9_unknown_tool_witness :
    call_tool "db" "bogus" (.obj []) (fun _ => .ok .null)
      = ⟨[], .pyRaise ("Unknown tool: " ++ "bogus")⟩ :=
  (c9_unknown_tool "db" "bogus" (.obj []) (fun _ => .ok .null) (by decide)).1

/-- C10: because the required-argument checks test truthiness rather than
presence, a `notion_update_page_content` call whose `content` is present
but the empty list, and any call whose `page_id` is present but the empty
string, are rejected with the same textual required-argument error as a
missing argument, with no external call made. -/
theorem c10_truthiness_rejection (database_id : String) (oracle : Nat → HttpResult) :
    (∀ args : Json, args.get "content" = .arr [] →
       call_tool database_id "notion_update_page_content" args oracle
         = ⟨[], .texts [.plain "Error: Both page_id and content are required."]⟩)
    ∧ (∀ args : Json, args.get "page_id" = .str "" →
         call_tool database_id "notion_update_status" args oracle
           = ⟨[], .texts [.plain "Error: Both page_id and target_status are required."]⟩
         ∧ call_tool database_id "notion_read_page_content" args oracle
           = ⟨[], .texts [.plain "Error: page_id is required."]⟩
         ∧ call_tool database_id "notion_update_page_content" args oracle
           = ⟨[], .texts [.plain "Error: Both page_id and content are required."]⟩
         ∧ call_tool database_id "notion_add_comment" args oracle
           = ⟨[], .texts [.plain "Error: Both page_id and comment are required."]⟩) := by
  refine ⟨fun args h => ?_, fun args h => ⟨?_, ?_, ?_, ?_⟩⟩ <;>
    simp [call_tool, knownTools, rawHandler, update_status_run, read_page_run,
      update_page_content_run, add_comment_run, catchHttp, h, Json.truthy]

/-- Witness for `c10_truthiness_rejection`: `page_id` given, `content`
given as the empty list, still rejected with the required-argument
error. -/
theorem c10_truthiness_rejection_witness :
    call_tool "db" "notion_update_page_content"
      (.obj [("page_id", .str "p"), ("content", .arr [])]) (fun _ => .ok .null)
      = ⟨[], .texts [.plain "Error: Both page_id and content are required."]⟩ :=
  (c10_truthiness_rejection "db" (fun _ => .ok .null)).1
    (.obj [("page_id", .str "p"), ("content", .arr [])]) rfl

end NotionMcp
